import Mathlib

/-!
Verification of the OpenAI chat-completions dispatch parsers
(`src/modules/aix/server/dispatch/chatGenerate/parsers/openai.parser.ts`).

The two source functions, `createOpenAIChatCompletionsChunkParser` (streaming)
and `createOpenAIChatCompletionsParserNS` (non-streaming), are shallowly
embedded here.  A parser invocation is modelled as a pure step function from
the closure state and one decoded wire chunk to the list of sink calls it
makes, the updated state, and the error it throws (if any).  JavaScript
truthiness on optional strings and numbers is modelled explicitly by the
`jsTruthy` / `jsOr` helpers; the sparse `tool_calls` array is modelled as a
list of optional entries with explicit hole-filling assignment.
-/

namespace OpenAIDispatch

/-! ### Wire shapes (decoded streaming chunk, per the zod chunk schema) -/

/-- The three possible states of the `content` field of a delta or message:
absent (undefined), null, or a string value. -/
inductive ContentField
  | absent
  | nullv
  | strv (s : String)
deriving DecidableEq

/-- The `function` object inside a streamed tool-call delta: optional name and
optional arguments fragment. -/
structure FunctionDelta where
  name : Option String
  arguments : Option String
deriving DecidableEq

/-- One entry of `delta.tool_calls` in a streaming chunk. -/
structure ToolCallDelta where
  index : Option Nat
  id : Option String
  type : Option String
  function : FunctionDelta
deriving DecidableEq

/-- The `delta` object of a streaming choice. -/
structure Delta where
  content : ContentField
  tool_calls : Option (List ToolCallDelta)
deriving DecidableEq

/-- One entry of a streaming chunk `choices` array. -/
structure Choice where
  index : Option Nat
  delta : Option Delta
  finish_reason : Option String
deriving DecidableEq

/-- The primary `usage` block of a chunk (all fields optional). -/
structure Usage where
  prompt_tokens : Option Int
  completion_tokens : Option Int
deriving DecidableEq

/-- The Groq usage envelope nested under `x_groq.usage`: prompt and completion
token counts and the completion time.  The time is a wire number, modelled as a
rational. -/
structure GroqUsage where
  prompt_tokens : Int
  completion_tokens : Int
  completion_time : Rat
deriving DecidableEq

/-- The `x_groq` envelope of a chunk. -/
structure XGroq where
  usage : GroqUsage
deriving DecidableEq

/-- A decoded streaming chunk.  The upstream `error` object is represented by
its message text (see `safeErrorString`). -/
structure Chunk where
  model : Option String
  error : Option String
  warning : Option String
  id : Option String
  object : Option String
  usage : Option Usage
  x_groq : Option XGroq
  choices : List Choice
deriving DecidableEq

/-! ### Sink calls (the IPartTransmitter interface) -/

/-- One side-effecting call into the `IPartTransmitter` sink, with the
arguments the parser passes.  `setCounters` carries the fields of the metrics
object literal the parser builds (absent keys are `none`). -/
inductive SinkCall
  | setModelName (name : String)
  | setDialectTerminatingIssue (message : String) (symbol : String)
  | setCounters (chatIn : Option Int) (chatOut : Option Int)
      (chatOutRate : Option Rat) (chatTimeInner : Option Rat)
  | appendText (text : String)
  | startFunctionToolCall (id : String) (name : String) (mode : String) (arguments : String)
  | appendFunctionToolCallArgsIStr (id : String) (arguments : String)
  | endMessagePart
deriving DecidableEq

/-- True on `setModelName` calls. -/
def SinkCall.isModelName : SinkCall → Bool
  | .setModelName _ => true
  | _ => false

/-- True on `setDialectTerminatingIssue` calls. -/
def SinkCall.isTerminatingIssue : SinkCall → Bool
  | .setDialectTerminatingIssue _ _ => true
  | _ => false

/-- True on `setCounters` calls. -/
def SinkCall.isCounters : SinkCall → Bool
  | .setCounters _ _ _ _ => true
  | _ => false

/-- True on `appendText` calls. -/
def SinkCall.isAppendText : SinkCall → Bool
  | .appendText _ => true
  | _ => false

/-- True on the two tool-call sink calls (`startFunctionToolCall` and
`appendFunctionToolCallArgsIStr`). -/
def SinkCall.isToolCallCall : SinkCall → Bool
  | .startFunctionToolCall _ _ _ _ => true
  | .appendFunctionToolCallArgsIStr _ _ => true
  | _ => false

/-! ### JavaScript truthiness helpers -/

/-- Truthiness of an optional string: present and non-empty. -/
def jsTruthy (o : Option String) : Bool :=
  match o with
  | some s => s != ""
  | none => false

/-- The JavaScript idiom `x || d` on an optional string: the value when
present and non-empty, otherwise the default. -/
def jsOr (o : Option String) (d : String) : String :=
  match o with
  | some s => if s == "" then d else s
  | none => d

/-- The JavaScript idiom `x || -1` on an optional integer: `-1` when the value
is absent or zero (falsy), otherwise the value. -/
def jsOrIntNeg1 (o : Option Int) : Int :=
  match o with
  | some n => if n == 0 then -1 else n
  | none => -1

/-- The JavaScript idiom `accumulator.content || ""`. -/
def jsOrContent (c : Option String) : String :=
  match c with
  | some s => s
  | none => ""

/-- JavaScript `Math.round` on a rational: floor of `x + 1/2`. -/
def jsRound (x : Rat) : Int :=
  Rat.floor (x + (1 : Rat) / 2)

/-- `Math.round(x * 100) / 100`: the value rounded to two decimal places. -/
def jsRound2 (x : Rat) : Rat :=
  ((jsRound (x * 100) : Rat)) / 100

/-! ### External collaborators, modelled from the spec -/

/-- Modelled from the spec: `safeErrorString` (from `~/server/wire`, not under
`src/`) best-effort stringifies the upstream error object.  The error object
is represented in `Chunk.error` by its message text, and its stringification
is that text itself. -/
def safeErrorString (e : String) : String := e

/-- Modelled from the spec: `IssueSymbols.Generic` (from
`ChatGenerateTransmitter`, not under `src/`) is the categorical symbol used
for upstream-reported failures. -/
def issueSymbolGeneric : String := "generic"

/-! ### Accumulator state -/

/-- One accumulated tool call (the source stores `type: 'function'` on every
entry; the kind is a closed set of one and is left implicit here). -/
structure ToolCall where
  id : String
  name : String
  arguments : String
deriving DecidableEq

/-- The closure state of one streaming session:
the two one-shot latches and the accumulator. The sparse JavaScript array
`accumulator.tool_calls` is a list of optional entries (`none` = hole). -/
structure PState where
  hasBegun : Bool
  hasWarned : Bool
  content : Option String
  tool_calls : List (Option ToolCall)
deriving DecidableEq

/-- The fresh session state created by `createOpenAIChatCompletionsChunkParser`. -/
def initState : PState :=
  { hasBegun := false, hasWarned := false, content := none, tool_calls := [] }

/-- Read slot `i` of the sparse tool-call array (`undefined` out of bounds or
on a hole). -/
def getSlot : List (Option ToolCall) → Nat → Option ToolCall
  | [], _ => none
  | x :: _, 0 => x
  | _ :: xs, n + 1 => getSlot xs n

/-- JavaScript array assignment `arr[i] = v`: replaces in bounds, otherwise
pads with holes so that the length becomes `i + 1`. -/
def setSlot : List (Option ToolCall) → Nat → ToolCall → List (Option ToolCall)
  | [], 0, v => [some v]
  | [], n + 1, v => none :: setSlot [] n v
  | _ :: xs, 0, v => some v :: xs
  | x :: xs, n + 1, v => x :: setSlot xs n v

/-! ### The streaming parser, one event -/

/-- Result of processing one streaming event: the sink calls made (in order),
the state at exit, and the thrown error message if the event threw. -/
structure StepOut where
  calls : List SinkCall
  state : PState
  err : Option String
deriving DecidableEq

/-- The `delta.tool_calls` loop of the streaming parser.  Walks the entries in
order against the sparse accumulator array; creating a new entry breaks out of
the loop; a validation failure throws, keeping the mutations made so far. -/
def processToolCalls (freshId : String) :
    List ToolCallDelta → List (Option ToolCall) →
    List SinkCall × List (Option ToolCall) × Option String
  | [], acc => ([], acc, none)
  | dtc :: rest, acc =>
    if dtc.type != none && dtc.type != some "function" then
      ([], acc, some ("unexpected tool_call type: " ++ jsOr dtc.type ""))
    else
      let tcIndex := dtc.index.getD acc.length
      match getSlot acc tcIndex with
      | none =>
        let cid := jsOr dtc.id freshId
        let cname := jsOr dtc.function.name ""
        let cargs := jsOr dtc.function.arguments ""
        ([.startFunctionToolCall cid cname "incr_str" cargs],
          setSlot acc tcIndex ⟨cid, cname, cargs⟩, none)
      | some tc =>
        if jsTruthy dtc.id && (dtc.id != some tc.id) then
          ([], acc, some ("unexpected tool_call id change: " ++ jsOr dtc.id ""))
        else if jsTruthy dtc.function.name then
          ([], acc, some ("unexpected tool_call name change: " ++ jsOr dtc.function.name ""))
        else
          match dtc.function.arguments with
          | some a =>
            if a == "" then processToolCalls freshId rest acc
            else
              let acc2 := setSlot acc tcIndex { tc with arguments := tc.arguments ++ a }
              let r := processToolCalls freshId rest acc2
              (.appendFunctionToolCallArgsIStr tc.id a :: r.1, r.2.1, r.2.2)
          | none => processToolCalls freshId rest acc

/-- The body of the `for ... of json.choices` loop for the single choice:
index validation, delta-presence validation, text delta, tool-call deltas. -/
def processChoice (st : PState) (freshId : String) (choice : Choice) :
    List SinkCall × PState × Option String :=
  match choice.index with
  | some i =>
    if i == 0 then processChoiceDelta st freshId choice
    else ([], st, some ("expected completion index 0, got " ++ toString i))
  | none => processChoiceDelta st freshId choice
where
  /-- Processing of the choice once its index passed validation. -/
  processChoiceDelta (st : PState) (freshId : String) (choice : Choice) :
      List SinkCall × PState × Option String :=
    match choice.delta with
    | none =>
      ([], st, some ("server response missing content (finish_reason: "
        ++ jsOrContent choice.finish_reason ++ ")"))
    | some d =>
      let tcalls : List SinkCall :=
        match d.content with
        | .strv s => [.appendText s]
        | _ => []
      let st3 : PState :=
        match d.content with
        | .strv s => { st with content := some (jsOrContent st.content ++ s) }
        | _ => st
      let r := processToolCalls freshId (d.tool_calls.getD []) st3.tool_calls
      (tcalls ++ r.1, { st3 with tool_calls := r.2.1 }, r.2.2)

/-- The Azure sentinel test: id, object and model all present and empty. -/
def sentinelB (c : Chunk) : Bool :=
  (c.id == some "") && (c.object == some "") && (c.model == some "")

/-- One invocation of the function returned by
`createOpenAIChatCompletionsChunkParser`, on the already-decoded chunk:
model latch, upstream error passthrough, warning latch, sentinel suppression,
primary usage, Groq usage, choice-count check, and the single choice. -/
def chunkEvent (st : PState) (freshId : String) (c : Chunk) : StepOut :=
  let mcalls : List SinkCall :=
    if jsTruthy c.model && !st.hasBegun then [.setModelName (jsOr c.model "")] else []
  let st1 : PState :=
    if jsTruthy c.model && !st.hasBegun then { st with hasBegun := true } else st
  match c.error with
  | some e =>
    { calls := mcalls ++ [.setDialectTerminatingIssue
        (jsOr (some (safeErrorString e)) "unknown.") issueSymbolGeneric],
      state := st1, err := none }
  | none =>
    let st2 : PState :=
      if jsTruthy c.warning && !st1.hasWarned then { st1 with hasWarned := true } else st1
    if sentinelB c then
      { calls := mcalls, state := st2, err := none }
    else
      let ucalls : List SinkCall :=
        match c.usage with
        | some u =>
          match u.completion_tokens with
          | some ct => [.setCounters (some (jsOrIntNeg1 u.prompt_tokens)) (some ct) none none]
          | none => []
        | none => []
      if c.usage.isSome && c.choices.isEmpty then
        { calls := mcalls ++ ucalls, state := st2, err := none }
      else
        let gcalls : List SinkCall :=
          match c.x_groq with
          | some g =>
            [.setCounters (some g.usage.prompt_tokens) (some g.usage.completion_tokens)
              (if (g.usage.completion_tokens != 0) && (g.usage.completion_time != 0)
                then some (jsRound2 ((g.usage.completion_tokens : Rat) / g.usage.completion_time))
                else none)
              (some g.usage.completion_time)]
          | none => []
        match c.choices with
        | [choice] =>
          let r := processChoice st2 freshId choice
          { calls := mcalls ++ ucalls ++ gcalls ++ r.1, state := r.2.1, err := r.2.2 }
        | cs =>
          { calls := mcalls ++ ucalls ++ gcalls, state := st2,
            err := some ("expected 1 completion, got " ++ toString cs.length) }

/-- Run the streaming parser over a list of events, each paired with the
fresh identifier the identifier service would hand out during that event.
Stops at the first thrown error (the transport never calls the parser again
after a fatal error). -/
def runChunks : PState → List (String × Chunk) → StepOut
  | st, [] => { calls := [], state := st, err := none }
  | st, (fid, c) :: rest =>
    let r := chunkEvent st fid c
    match r.err with
    | some e => { calls := r.calls, state := r.state, err := some e }
    | none =>
      let rr := runChunks r.state rest
      { calls := r.calls ++ rr.calls, state := rr.state, err := rr.err }

/-! ### The non-streaming parser -/

/-- The `usage` block of a full response (both counts required by the
response schema). -/
structure NSUsage where
  prompt_tokens : Int
  completion_tokens : Int
deriving DecidableEq

/-- The `function` object of a full-response tool call (name and arguments
required). -/
structure NSFunction where
  name : String
  arguments : String
deriving DecidableEq

/-- One tool call of a full-response message. -/
structure NSToolCall where
  id : String
  type : Option String
  function : NSFunction
deriving DecidableEq

/-- The `message` object of a full-response choice. -/
structure NSMessage where
  content : ContentField
  tool_calls : Option (List NSToolCall)
deriving DecidableEq

/-- One entry of a full-response `choices` array (index required). -/
structure NSChoice where
  index : Nat
  message : Option NSMessage
  finish_reason : Option String
deriving DecidableEq

/-- A decoded full (non-streaming) response. -/
structure NSResponse where
  model : Option String
  error : Option String
  warning : Option String
  usage : Option NSUsage
  choices : List NSChoice
deriving DecidableEq

/-- The `message.tool_calls` loop of the non-streaming parser. -/
def nsToolCallsRun : List NSToolCall → List SinkCall × Option String
  | [] => ([], none)
  | tc :: rest =>
    if tc.type != none && tc.type != some "function" then
      ([], some ("unexpected tool_call type: " ++ jsOr tc.type ""))
    else
      let r := nsToolCallsRun rest
      (.startFunctionToolCall tc.id tc.function.name "incr_str" tc.function.arguments
        :: .endMessagePart :: r.1, r.2)

/-- One invocation of the function returned by
`createOpenAIChatCompletionsParserNS` on the decoded full response.  Embedded
errors and warnings are only logged (no sink call, no throw). -/
def chatCompletionsNS (resp : NSResponse) : List SinkCall × Option String :=
  let mcalls : List SinkCall :=
    if jsTruthy resp.model then [.setModelName (jsOr resp.model "")] else []
  let ucalls : List SinkCall :=
    match resp.usage with
    | some u => [.setCounters (some u.prompt_tokens) (some u.completion_tokens) none none]
    | none => []
  match resp.choices with
  | [choice] =>
    if choice.index == 0 then
      match choice.message with
      | none =>
        (mcalls ++ ucalls, some ("server response missing content (finish_reason: "
          ++ jsOrContent choice.finish_reason ++ ")"))
      | some msg =>
        let tcalls : List SinkCall :=
          match msg.content with
          | .strv s => if s == "" then [] else [.appendText s]
          | _ => []
        let r := nsToolCallsRun (msg.tool_calls.getD [])
        (mcalls ++ ucalls ++ tcalls ++ r.1, r.2)
    else
      (mcalls ++ ucalls, some ("expected completion index 0, got " ++ toString choice.index))
  | cs =>
    (mcalls ++ ucalls, some ("expected 1 completion, got " ++ toString cs.length))

end OpenAIDispatch

namespace OpenAIDispatch

/-! ### Concrete chunk shapes used by the claims -/

/-- A chunk with every optional field absent and no choices. -/
def emptyChunk : Chunk :=
  { model := none, error := none, warning := none, id := none, object := none,
    usage := none, x_groq := none, choices := [] }

/-- A choice carrying an empty delta: index 0, absent content, no tool calls. -/
def emptyDeltaChoice : Choice :=
  { index := some 0, delta := some { content := .absent, tool_calls := none },
    finish_reason := none }

/-- A well-formed chunk whose single choice carries the text fragment `f`. -/
def textDeltaChunk (f : String) : Chunk :=
  { emptyChunk with choices :=
      [{ index := some 0, delta := some { content := .strv f, tool_calls := none },
         finish_reason := none }] }

/-- A well-formed chunk carrying the model name `m` and an otherwise empty delta. -/
def modelChunk (m : String) : Chunk :=
  { emptyChunk with model := some m, choices := [emptyDeltaChoice] }

/-- A well-formed chunk whose single choice carries the given tool-call deltas. -/
def toolCallsChunk (tcs : List ToolCallDelta) : Chunk :=
  { emptyChunk with choices :=
      [{ index := some 0, delta := some { content := .absent, tool_calls := some tcs },
         finish_reason := none }] }

/-- The tool-call delta that first addresses index `j` (kind declared as the
function kind), carrying optional id, name and argument seed. -/
def creationDelta (j : Nat) (idOpt nameOpt argsOpt : Option String) : ToolCallDelta :=
  { index := some j, id := idOpt, type := some "function",
    function := { name := nameOpt, arguments := argsOpt } }

/-- The tool-call delta that appends the argument fragment `a` to the existing
call at index `j`. -/
def updateDelta (j : Nat) (a : String) : ToolCallDelta :=
  { index := some j, id := none, type := none,
    function := { name := none, arguments := some a } }

/-- A chunk carrying an upstream error object with message `e`. -/
def errorChunk (e : String) : Chunk :=
  { emptyChunk with error := some e }

-- Scenario A of the spec: two text chunks accumulate and forward in order.
example :
    runChunks initState [("x", { textDeltaChunk "Hel" with model := some "m1" }),
                         ("x", textDeltaChunk "lo")] =
      { calls := [.setModelName "m1", .appendText "Hel", .appendText "lo"],
        state := { initState with hasBegun := true, content := some "Hello" },
        err := none } := by decide

-- Scenario B of the spec: creation then argument growth.
example :
    runChunks initState
      [("g", toolCallsChunk [creationDelta 0 (some "tc1") (some "get_weather") (some "")]),
       ("g", toolCallsChunk [updateDelta 0 "cityfrag"])] =
      { calls := [.startFunctionToolCall "tc1" "get_weather" "incr_str" "",
                  .appendFunctionToolCallArgsIStr "tc1" "cityfrag"],
        state := { initState with
          tool_calls := [some ⟨"tc1", "get_weather", "cityfrag"⟩] },
        err := none } := by decide

-- Scenario C of the spec: final usage-only chunk reports counters and stops.
example :
    chunkEvent initState "x"
      { emptyChunk with usage := some { prompt_tokens := some 10, completion_tokens := some 20 } } =
      { calls := [.setCounters (some 10) (some 20) none none],
        state := initState, err := none } := by decide

-- Scenario D of the spec: upstream error becomes one terminating issue.
example :
    chunkEvent initState "x" (errorChunk "rate limited") =
      { calls := [.setDialectTerminatingIssue "rate limited" issueSymbolGeneric],
        state := initState, err := none } := by decide

-- Sentinel chunk: zero sink calls, no error.
example :
    chunkEvent initState "x"
      { emptyChunk with id := some "", object := some "", model := some "" } =
      { calls := [], state := initState, err := none } := by decide

end OpenAIDispatch

namespace OpenAIDispatch

/-! ### Sparse-array lemmas -/

/-- Reading any slot of the empty array gives a hole. -/
theorem getSlot_nil (i : Nat) : getSlot [] i = none := by
  cases i <;> rfl

/-- Reading back the slot just assigned. -/
theorem getSlot_setSlot_self (l : List (Option ToolCall)) (i : Nat) (v : ToolCall) :
    getSlot (setSlot l i v) i = some v := by
  induction l generalizing i with
  | nil =>
    induction i with
    | zero => rfl
    | succ n ih => simpa [setSlot, getSlot] using ih
  | cons x xs ih =>
    cases i with
    | zero => rfl
    | succ n => simpa [setSlot, getSlot] using ih n

/-- Overwriting the same slot twice keeps only the second assignment. -/
theorem setSlot_setSlot_self (l : List (Option ToolCall)) (i : Nat) (v w : ToolCall) :
    setSlot (setSlot l i v) i w = setSlot l i w := by
  induction l generalizing i with
  | nil =>
    induction i with
    | zero => rfl
    | succ n ih => simpa [setSlot] using ih
  | cons x xs ih =>
    cases i with
    | zero => rfl
    | succ n => simpa [setSlot] using ih n

/-- Writing back the value already present leaves the array unchanged. -/
theorem setSlot_getSlot_self (l : List (Option ToolCall)) (i : Nat) (v : ToolCall)
    (h : getSlot l i = some v) : setSlot l i v = l := by
  induction l generalizing i with
  | nil => simp [getSlot_nil] at h
  | cons x xs ih =>
    cases i with
    | zero => simp [getSlot] at h; simp [setSlot, h]
    | succ n => simp [getSlot] at h; simp [setSlot, ih n h]

/-! ### String helpers -/

/-- `String.join` distributes over cons. -/
theorem join_cons_str (s : String) (ss : List String) :
    String.join (s :: ss) = s ++ String.join ss := by
  apply String.ext
  simp

/-! ### Text-delta chunks (claim C1) -/

/-- One text-delta chunk appends the fragment to the accumulated content and
forwards it to the sink, and changes nothing else. -/
theorem chunkEvent_textDelta (st : PState) (fid f : String) :
    chunkEvent st fid (textDeltaChunk f) =
      { calls := [.appendText f],
        state := { st with content := some (jsOrContent st.content ++ f) },
        err := none } := rfl

/-- The content value after folding a list of text fragments into an optional
content accumulator, mirroring `content = (content || "") + fragment`. -/
def contentAfter (c : Option String) : List String → Option String
  | [] => c
  | f :: rest => contentAfter (some (jsOrContent c ++ f)) rest

/-- Folding fragments onto a present content value concatenates them all. -/
theorem contentAfter_some (s : String) (fs : List String) :
    contentAfter (some s) fs = some (s ++ String.join fs) := by
  induction fs generalizing s with
  | nil => simp [contentAfter, String.join, String.append_empty]
  | cons f rest ih => simp [contentAfter, jsOrContent, ih, join_cons_str, String.append_assoc]

/-- Running the streaming parser over text-delta chunks: each fragment is
forwarded once, in order, the content accumulates, and no error is thrown. -/
theorem runChunks_textDeltas (fs : List String) (st : PState) (fid : String) :
    runChunks st (fs.map fun f => (fid, textDeltaChunk f)) =
      { calls := fs.map SinkCall.appendText,
        state := { st with content := contentAfter st.content fs },
        err := none } := by
  induction fs generalizing st with
  | nil => simp [runChunks, contentAfter]
  | cons f rest ih =>
    simp only [List.map_cons, runChunks, chunkEvent_textDelta, ih, contentAfter,
      List.singleton_append]

/-- C1: Streaming parser text accumulation — for every sequence of well-formed
chunks whose single choice carries the string content fragments `fs`, after
processing them in arrival order the accumulated content equals their
concatenation, the sink receives one `appendText` per fragment with exactly
that fragment in arrival order, and no error is thrown. -/
theorem claim_C1_text_accumulation (fs : List String) (fid : String) (h : fs ≠ []) :
    (runChunks initState (fs.map fun f => (fid, textDeltaChunk f))).calls =
      fs.map SinkCall.appendText ∧
    (runChunks initState (fs.map fun f => (fid, textDeltaChunk f))).state.content =
      some (String.join fs) ∧
    (runChunks initState (fs.map fun f => (fid, textDeltaChunk f))).err = none := by
  cases fs with
  | nil => exact absurd rfl h
  | cons f rest =>
    rw [runChunks_textDeltas]
    refine ⟨rfl, ?_, rfl⟩
    simp [initState, contentAfter, jsOrContent, contentAfter_some, join_cons_str,
      String.empty_append]

/-- C1 witness: the theorem applied to the concrete fragments of Scenario A. -/
theorem claim_C1_text_accumulation_witness :
    (runChunks initState (["Hel", "lo"].map fun f => ("x", textDeltaChunk f))).calls =
      ["Hel", "lo"].map SinkCall.appendText ∧
    (runChunks initState (["Hel", "lo"].map fun f => ("x", textDeltaChunk f))).state.content =
      some (String.join ["Hel", "lo"]) ∧
    (runChunks initState (["Hel", "lo"].map fun f => ("x", textDeltaChunk f))).err = none :=
  claim_C1_text_accumulation ["Hel", "lo"] "x" (by decide)

/-! ### Tool-call chunks (claims C2, C3, C9) -/

/-- A tool-call-only chunk routes straight to the tool-call loop over the
accumulator array, leaving latches and content untouched. -/
theorem chunkEvent_toolCalls (st : PState) (fid : String) (tcs : List ToolCallDelta) :
    chunkEvent st fid (toolCallsChunk tcs) =
      { calls := (processToolCalls fid tcs st.tool_calls).1,
        state := { st with tool_calls := (processToolCalls fid tcs st.tool_calls).2.1 },
        err := (processToolCalls fid tcs st.tool_calls).2.2 } := rfl

/-- First sight of an index: the loop creates the entry from the event fields
(or their defaults), notifies the sink once, and ignores all later entries of
the same event. -/
theorem processToolCalls_creation (fid : String) (j : Nat)
    (idOpt nameOpt argsOpt : Option String) (rest : List ToolCallDelta)
    (acc : List (Option ToolCall)) (h : getSlot acc j = none) :
    processToolCalls fid (creationDelta j idOpt nameOpt argsOpt :: rest) acc =
      ([.startFunctionToolCall (jsOr idOpt fid) (jsOr nameOpt "") "incr_str" (jsOr argsOpt "")],
        setSlot acc j ⟨jsOr idOpt fid, jsOr nameOpt "", jsOr argsOpt ""⟩, none) := by
  simp [processToolCalls, creationDelta, h]

/-- The tool call `tc` with `s` appended to its arguments text. -/
def appendArgs (tc : ToolCall) (s : String) : ToolCall :=
  { tc with arguments := tc.arguments ++ s }

/-- Argument update on an existing entry with an empty fragment: a no-op
(falsy arguments are not appended nor forwarded). -/
theorem processToolCalls_update_empty (fid : String) (j : Nat) (tc : ToolCall)
    (acc : List (Option ToolCall)) (h : getSlot acc j = some tc) :
    processToolCalls fid [updateDelta j ""] acc = ([], acc, none) := by
  simp [processToolCalls, updateDelta, jsTruthy, h]

/-- Argument update on an existing entry with a non-empty fragment: the
fragment is appended to the stored arguments and forwarded keyed by the
stored id. -/
theorem processToolCalls_update_ne (fid : String) (j : Nat) (a : String) (tc : ToolCall)
    (acc : List (Option ToolCall)) (h : getSlot acc j = some tc) (ha : a ≠ "") :
    processToolCalls fid [updateDelta j a] acc =
      ([.appendFunctionToolCallArgsIStr tc.id a], setSlot acc j (appendArgs tc a), none) := by
  simp [processToolCalls, updateDelta, jsTruthy, h, ha, appendArgs]

/-- Running the parser over a sequence of argument-update chunks for index `j`
with entry `tc` present: every non-empty fragment is forwarded once, in
arrival order, the stored arguments grow by the concatenation of all the
fragments, and nothing else changes. -/
theorem runChunks_argUpdates (as : List String) (st : PState) (uid : String) (j : Nat)
    (tc : ToolCall) (h : getSlot st.tool_calls j = some tc) :
    runChunks st (as.map fun a => (uid, toolCallsChunk [updateDelta j a])) =
      { calls := (as.filter fun a => a != "").map
          (SinkCall.appendFunctionToolCallArgsIStr tc.id),
        state := { st with tool_calls := setSlot st.tool_calls j (appendArgs tc (String.join as)) },
        err := none } := by
  induction as generalizing st tc with
  | nil =>
    have he : appendArgs tc "" = tc := by
      simp [appendArgs, String.append_empty]
    simp [runChunks, String.join, he, setSlot_getSlot_self _ _ _ h]
  | cons a rest ih =>
    by_cases ha : a = ""
    · subst ha
      rw [List.map_cons, runChunks, chunkEvent_toolCalls,
        processToolCalls_update_empty uid j tc st.tool_calls h]
      rw [show ({ st with tool_calls := ([], st.tool_calls, (none : Option String)).2.1 }) = st
        from rfl]
      rw [ih st tc h]
      simp [join_cons_str, String.empty_append]
    · rw [List.map_cons, runChunks, chunkEvent_toolCalls,
        processToolCalls_update_ne uid j a tc st.tool_calls h ha]
      have h2 : getSlot (setSlot st.tool_calls j (appendArgs tc a)) j =
          some (appendArgs tc a) :=
        getSlot_setSlot_self _ _ _
      rw [ih _ _ h2]
      simp [setSlot_setSlot_self, appendArgs, join_cons_str, String.append_assoc, ha]

/-- A creation chunk for index `j` followed by any sequence of argument-update
chunks for `j`: one creation notification, then one forward per non-empty
fragment in order, with the entry holding the seed plus all fragments. -/
theorem runChunks_createThenUpdates (st : PState) (fid uid : String) (j : Nat)
    (idOpt nameOpt argsOpt : Option String) (as : List String)
    (h : getSlot st.tool_calls j = none) :
    runChunks st ((fid, toolCallsChunk [creationDelta j idOpt nameOpt argsOpt]) :: as.map fun a => (uid, toolCallsChunk [updateDelta j a])) =
      { calls := SinkCall.startFunctionToolCall (jsOr idOpt fid) (jsOr nameOpt "") "incr_str" (jsOr argsOpt "") :: (as.filter fun a => a != "").map (SinkCall.appendFunctionToolCallArgsIStr (jsOr idOpt fid)),
        state := { st with tool_calls := setSlot st.tool_calls j (appendArgs ⟨jsOr idOpt fid, jsOr nameOpt "", jsOr argsOpt ""⟩ (String.join as)) },
        err := none } := by
  simp only [runChunks, chunkEvent_toolCalls,
    processToolCalls_creation fid j idOpt nameOpt argsOpt [] st.tool_calls h]
  rw [runChunks_argUpdates as _ uid j ⟨jsOr idOpt fid, jsOr nameOpt "", jsOr argsOpt ""⟩
    (getSlot_setSlot_self st.tool_calls j _)]
  simp [setSlot_setSlot_self]

/-- C2: Streaming parser tool-call argument accumulation — after a creation
chunk for index `j` and any sequence of argument-update chunks for `j`, the
recorded argumentsText equals the creation-time seed concatenated with every
subsequent argument fragment in arrival order (empty fragments contribute
nothing), each non-empty fragment is forwarded to the sink exactly once, in
order, keyed by the tool call id, and no fragment is dropped or reordered. -/
theorem claim_C2_toolcall_args (j : Nat) (idOpt nameOpt argsOpt : Option String)
    (fid uid : String) (as : List String) :
    getSlot (runChunks initState ((fid, toolCallsChunk [creationDelta j idOpt nameOpt argsOpt]) :: as.map fun a => (uid, toolCallsChunk [updateDelta j a]))).state.tool_calls j =
      some ⟨jsOr idOpt fid, jsOr nameOpt "", jsOr argsOpt "" ++ String.join as⟩ ∧
    (runChunks initState ((fid, toolCallsChunk [creationDelta j idOpt nameOpt argsOpt]) :: as.map fun a => (uid, toolCallsChunk [updateDelta j a]))).calls =
      SinkCall.startFunctionToolCall (jsOr idOpt fid) (jsOr nameOpt "") "incr_str" (jsOr argsOpt "") :: (as.filter fun a => a != "").map (SinkCall.appendFunctionToolCallArgsIStr (jsOr idOpt fid)) ∧
    (runChunks initState ((fid, toolCallsChunk [creationDelta j idOpt nameOpt argsOpt]) :: as.map fun a => (uid, toolCallsChunk [updateDelta j a]))).err = none := by
  rw [runChunks_createThenUpdates initState fid uid j idOpt nameOpt argsOpt as (getSlot_nil j)]
  exact ⟨getSlot_setSlot_self _ _ _, rfl, rfl⟩

/-- Whether a tool-call delta attempts to change the id of the existing entry
`tc`: a truthy (non-empty) id different from the stored one. -/
def idChangeAttempt (idOpt : Option String) (tc : ToolCall) : Bool :=
  jsTruthy idOpt && (idOpt != some tc.id)

/-- C3: Write-once id and name — for every chunk addressed to a tool-call
index that already has an entry, supplying a different non-empty id, or any
non-empty name, raises a fatal error, and the parser state is unchanged by
that event. -/
theorem claim_C3_write_once (st : PState) (fid : String) (j : Nat) (tc : ToolCall)
    (idOpt nameOpt argsOpt : Option String)
    (hslot : getSlot st.tool_calls j = some tc)
    (hbad : (idChangeAttempt idOpt tc || jsTruthy nameOpt) = true) :
    (chunkEvent st fid (toolCallsChunk [creationDelta j idOpt nameOpt argsOpt])).err.isSome ∧
    (chunkEvent st fid (toolCallsChunk [creationDelta j idOpt nameOpt argsOpt])).state = st := by
  rw [chunkEvent_toolCalls]
  rcases Bool.or_eq_true_iff.mp hbad with hid | hname
  · obtain ⟨hid1, hid2⟩ : jsTruthy idOpt = true ∧ ¬idOpt = some tc.id := by
      simpa [idChangeAttempt] using hid
    constructor <;> simp [processToolCalls, creationDelta, hslot, hid1, hid2]
  · by_cases hid : (jsTruthy idOpt = true ∧ ¬idOpt = some tc.id)
    · constructor <;> simp [processToolCalls, creationDelta, hslot, hid.1, hid.2]
    · constructor <;> simp [processToolCalls, creationDelta, hslot, hname, if_neg hid]

/-- C3 witness: with index 0 holding id tc1, a chunk supplying id tc2 for
index 0 errors fatally and leaves the state unchanged. -/
theorem claim_C3_write_once_witness :
    (chunkEvent ⟨false, false, none, [some ⟨"tc1", "get_weather", ""⟩]⟩ "g" (toolCallsChunk [creationDelta 0 (some "tc2") none none])).err.isSome ∧
    (chunkEvent ⟨false, false, none, [some ⟨"tc1", "get_weather", ""⟩]⟩ "g" (toolCallsChunk [creationDelta 0 (some "tc2") none none])).state = ⟨false, false, none, [some ⟨"tc1", "get_weather", ""⟩]⟩ :=
  claim_C3_write_once ⟨false, false, none, [some ⟨"tc1", "get_weather", ""⟩]⟩ "g" 0
    ⟨"tc1", "get_weather", ""⟩ (some "tc2") none none (by decide) (by decide)

/-! ### Model-carrying chunks (claim C4) -/

/-- One model-carrying chunk (with an otherwise empty delta): reports the
model name exactly when the name is non-empty and the latch is unset, and
latches; nothing else happens. -/
theorem chunkEvent_model (st : PState) (fid m : String) :
    chunkEvent st fid (modelChunk m) =
      { calls := if (m != "") && !st.hasBegun then [.setModelName m] else [],
        state := if (m != "") && !st.hasBegun then { st with hasBegun := true } else st,
        err := none } := by
  obtain ⟨b, w, ct, tcs⟩ := st
  by_cases hm : m = ""
  · subst hm
    simp [chunkEvent, modelChunk, emptyChunk, emptyDeltaChoice, sentinelB, jsTruthy, jsOr,
      processChoice, processChoice.processChoiceDelta, processToolCalls]
  · by_cases hb : b <;>
      simp [chunkEvent, modelChunk, emptyChunk, emptyDeltaChoice, sentinelB, jsTruthy, jsOr, hm, hb,
        processChoice, processChoice.processChoiceDelta, processToolCalls]

/-- Running the parser over model-carrying chunks: if the latch is already
set, no model call is made; otherwise exactly the first non-empty model value
is reported. -/
theorem runChunks_models (models : List String) (st : PState) (fid : String) :
    (runChunks st (models.map fun m => (fid, modelChunk m))).calls =
      if st.hasBegun then []
      else
        match models.find? (fun m => m != "") with
        | some m => [SinkCall.setModelName m]
        | none => [] := by
  induction models generalizing st with
  | nil => simp [runChunks]
  | cons m rest ih =>
    by_cases hm : m = ""
    · subst hm
      by_cases hb : st.hasBegun <;>
        simp [runChunks, chunkEvent_model, hb, ih, List.find?]
    · have hmb : (m != "") = true := bne_iff_ne.mpr hm
      by_cases hb : st.hasBegun <;>
        simp [runChunks, chunkEvent_model, hmb, hb, ih, List.find?]

/-- C4 counterexample: a chunk carrying the model field with the empty-string
value produces no `setModelName` call at all, so the sink call does not fire
exactly once with the first model value seen. -/
theorem claim_C4_counterexample :
    (runChunks initState [("x", modelChunk "")]).calls = [] ∧
    ¬((runChunks initState [("x", modelChunk "")]).calls.filter SinkCall.isModelName).length = 1 := by
  constructor <;> decide

/-- C4 (amended): over any sequence of model-carrying chunks, `setModelName`
is called exactly once with the first non-empty model value, and never if all
carried model values are empty (an empty model string is falsy and does not
trigger or consume the report latch). -/
theorem claim_C4_model_report (models : List String) (fid : String) :
    (runChunks initState (models.map fun m => (fid, modelChunk m))).calls =
      match models.find? (fun m => m != "") with
      | some m => [SinkCall.setModelName m]
      | none => [] := by
  rw [runChunks_models models initState fid]
  simp [initState]

/-! ### Usage reporting (claims C5, C6, C10) -/

/-- On any chunk without an upstream error and not sentinel-suppressed, a
present usage block with a defined completion-token count produces the primary
counters call, on every continuation path of the event. -/
theorem usage_counters_mem (st : PState) (fid : String) (c : Chunk) (u : Usage) (ct : Int)
    (he : c.error = none) (hs : sentinelB c = false)
    (hu : c.usage = some u) (hct : u.completion_tokens = some ct) :
    SinkCall.setCounters (some (jsOrIntNeg1 u.prompt_tokens)) (some ct) none none ∈
      (chunkEvent st fid c).calls := by
  simp only [chunkEvent, he, hs, hu, hct]
  rw [if_neg (by simp : ¬(false = true))]
  split
  · simp
  · split <;> simp

/-- A well-formed chunk carrying a usage block with only a prompt-token
count (completion count undefined). -/
def promptOnlyUsageChunk : Chunk :=
  { emptyChunk with
    usage := some { prompt_tokens := some 10, completion_tokens := none }
    choices := [emptyDeltaChoice] }

/-- C5 counterexample: a well-formed chunk carrying a usage block whose
completion-token count is undefined is processed without error yet produces no
`setCounters` call at all. -/
theorem claim_C5_counterexample :
    ((chunkEvent initState "x" promptOnlyUsageChunk).calls.filter SinkCall.isCounters) = [] ∧
    (chunkEvent initState "x" promptOnlyUsageChunk).err = none := by
  constructor <;> decide

/-- C5 (amended): for every chunk that carries no upstream error, is not the
sentinel bookkeeping chunk, and carries a usage block whose completion-token
count is defined, the parser makes a `setCounters` call whose output count is
the completion-token count and whose input count is the prompt-token count
when non-zero, `-1` otherwise; when the completion count is undefined no
primary counters are reported. -/
theorem claim_C5_usage_reporting (st : PState) (fid : String) (c : Chunk) (u : Usage) (ct : Int)
    (he : c.error = none) (hs : sentinelB c = false)
    (hu : c.usage = some u) (hct : u.completion_tokens = some ct) :
    SinkCall.setCounters (some (jsOrIntNeg1 u.prompt_tokens)) (some ct) none none ∈
      (chunkEvent st fid c).calls :=
  usage_counters_mem st fid c u ct he hs hu hct

/-- A well-formed chunk carrying full usage counts. -/
def fullUsageChunk : Chunk :=
  { emptyChunk with
    usage := some { prompt_tokens := some 10, completion_tokens := some 20 }
    choices := [emptyDeltaChoice] }

/-- C5 witness: the amended theorem at a concrete usage chunk. -/
theorem claim_C5_usage_reporting_witness :
    SinkCall.setCounters (some 10) (some 20) none none ∈
      (chunkEvent initState "x" fullUsageChunk).calls := by
  have h := claim_C5_usage_reporting initState "x" fullUsageChunk
    { prompt_tokens := some 10, completion_tokens := some 20 } 20 rfl rfl rfl rfl
  revert h
  decide

/-- A well-formed chunk whose usage block has a completion count but no
prompt count. -/
def missingPromptUsageChunk : Chunk :=
  { emptyChunk with
    usage := some { prompt_tokens := none, completion_tokens := some 20 }
    choices := [emptyDeltaChoice] }

/-- C10: when the usage block defines the completion-token count but its
prompt-token count is absent or zero, the reported input counter is `-1`,
not `0`, because the code substitutes `-1` for any falsy prompt count. -/
theorem claim_C10_input_minus_one (st : PState) (fid : String) (c : Chunk) (u : Usage) (ct : Int)
    (he : c.error = none) (hs : sentinelB c = false)
    (hu : c.usage = some u) (hct : u.completion_tokens = some ct)
    (hp : u.prompt_tokens = none ∨ u.prompt_tokens = some 0) :
    SinkCall.setCounters (some (-1)) (some ct) none none ∈
      (chunkEvent st fid c).calls := by
  have h := usage_counters_mem st fid c u ct he hs hu hct
  rcases hp with hp | hp <;> rw [hp] at h <;> simpa [jsOrIntNeg1] using h

/-- C10 witness: with the prompt count absent, the counters call carries
input `-1`. -/
theorem claim_C10_input_minus_one_witness :
    SinkCall.setCounters (some (-1)) (some 20) none none ∈
      (chunkEvent initState "x" missingPromptUsageChunk).calls := by
  have h := claim_C10_input_minus_one initState "x" missingPromptUsageChunk
    { prompt_tokens := none, completion_tokens := some 20 } 20 rfl rfl rfl rfl (Or.inl rfl)
  revert h
  decide

/-- A chunk carrying both a primary usage block (with a defined completion
count) and the Groq usage envelope, with an empty choice list. -/
def groqWithFinalUsageChunk : Chunk :=
  { emptyChunk with
    usage := some { prompt_tokens := some 3, completion_tokens := some 5 }
    x_groq := some { usage := { prompt_tokens := 1, completion_tokens := 2, completion_time := 1 } }
    choices := [] }

/-- C6 counterexample: on a chunk where the primary usage block is present and
the choice list is empty, the final-stats early return fires before the Groq
envelope is examined — only the primary counters are reported, so the alternate
envelope is not reported independently of the primary block. -/
theorem claim_C6_counterexample :
    (chunkEvent initState "x" groqWithFinalUsageChunk).calls =
      [SinkCall.setCounters (some 3) (some 5) none none] ∧
    (chunkEvent initState "x" groqWithFinalUsageChunk).err = none := by
  constructor <;> decide

/-- On any chunk without an upstream error, not sentinel-suppressed, and not
taking the final-stats early return (usage present with empty choices), a
present Groq envelope produces its counters call on every continuation path. -/
theorem groq_counters_mem (st : PState) (fid : String) (c : Chunk) (g : XGroq)
    (he : c.error = none) (hs : sentinelB c = false)
    (hne : (c.usage.isSome && c.choices.isEmpty) = false)
    (hg : c.x_groq = some g) :
    SinkCall.setCounters (some g.usage.prompt_tokens) (some g.usage.completion_tokens)
      (if (g.usage.completion_tokens != 0) && (g.usage.completion_time != 0) then some (jsRound2 ((g.usage.completion_tokens : Rat) / g.usage.completion_time)) else none)
      (some g.usage.completion_time) ∈ (chunkEvent st fid c).calls := by
  simp only [chunkEvent, he, hs, hg, hne]
  rw [if_neg (by simp : ¬(false = true))]
  rw [if_neg (by simp : ¬(false = true))]
  split <;> simp

/-- C6 (amended): for every chunk carrying the Groq usage envelope, that
carries no upstream error, is not the sentinel bookkeeping chunk, and does not
take the final-stats early return (a usage block present with an empty choice
list), the parser reports the envelope's input tokens, output tokens, the
output rate rounded to two decimal places when both output count and duration
are non-zero, and the inner completion duration, as one counters call,
regardless of whether the primary usage block was acted upon. -/
theorem claim_C6_groq_usage (st : PState) (fid : String) (c : Chunk) (g : XGroq)
    (he : c.error = none) (hs : sentinelB c = false)
    (hne : (c.usage.isSome && c.choices.isEmpty) = false)
    (hg : c.x_groq = some g) :
    SinkCall.setCounters (some g.usage.prompt_tokens) (some g.usage.completion_tokens)
      (if (g.usage.completion_tokens != 0) && (g.usage.completion_time != 0) then some (jsRound2 ((g.usage.completion_tokens : Rat) / g.usage.completion_time)) else none)
      (some g.usage.completion_time) ∈ (chunkEvent st fid c).calls :=
  groq_counters_mem st fid c g he hs hne hg

/-- A chunk carrying only the Groq usage envelope and one empty-delta choice. -/
def groqOnlyChunk : Chunk :=
  { emptyChunk with
    x_groq := some { usage := { prompt_tokens := 3, completion_tokens := 10, completion_time := 2 } }
    choices := [emptyDeltaChoice] }

/-- `Rat.floor` agrees with the floor-ring floor on the rationals. -/
theorem ratFloor_eq_intFloor (q : Rat) : Rat.floor q = ⌊q⌋ := by
  rw [Rat.floor_def', Rat.floor_def]

/-- C6 witness: the amended theorem at a concrete Groq chunk, where the rate
is 10 tokens over 2 time units, reported as 5. -/
theorem claim_C6_groq_usage_witness :
    SinkCall.setCounters (some 3) (some 10) (some 5) (some 2) ∈
      (chunkEvent initState "x" groqOnlyChunk).calls := by
  have h := claim_C6_groq_usage initState "x" groqOnlyChunk
    { usage := { prompt_tokens := 3, completion_tokens := 10, completion_time := 2 } }
    rfl rfl rfl rfl
  have e : jsRound2 (((10 : Int) : Rat) / (2 : Rat)) = 5 := by
    rw [jsRound2, jsRound, ratFloor_eq_intFloor]
    norm_num
  have hc : (((10 : Int) != (0 : Int)) && ((2 : Rat) != (0 : Rat))) = true := by
    rw [Bool.and_eq_true, bne_iff_ne, bne_iff_ne]
    norm_num
  rw [show ({ usage := { prompt_tokens := 3, completion_tokens := 10, completion_time := 2 } } : XGroq) = ⟨⟨3, 10, 2⟩⟩ from rfl] at h
  simp only [hc, if_true, e] at h
  simpa [e] using h

/-- The Azure sentinel bookkeeping chunk with an empty choice list. -/
def sentinelEmptyChunk : Chunk :=
  { emptyChunk with id := some "", object := some "", model := some "" }

/-- C7 counterexample: a sentinel chunk with zero choices and no usage block
is suppressed silently — no fatal error is raised, contradicting the claim
that every chunk with zero choices outside the final-usage-only case errors. -/
theorem claim_C7_counterexample :
    sentinelEmptyChunk.choices.length = 0 ∧ sentinelEmptyChunk.usage = none ∧
    (chunkEvent initState "x" sentinelEmptyChunk).err = none := by
  refine ⟨?_, ?_, ?_⟩ <;> decide

/-- C7 (amended): every streaming chunk that carries no upstream error, is not
the sentinel bookkeeping chunk, and is not the final usage-only case (usage
present with empty choices), whose choice count differs from 1, causes a fatal
error; every non-streaming response whose choice count differs from 1 causes a
fatal error unconditionally. -/
theorem claim_C7_single_choice :
    (∀ (st : PState) (fid : String) (c : Chunk),
      c.error = none → sentinelB c = false → (c.usage.isSome && c.choices.isEmpty) = false →
      c.choices.length ≠ 1 → (chunkEvent st fid c).err.isSome) ∧
    (∀ r : NSResponse, r.choices.length ≠ 1 → (chatCompletionsNS r).2.isSome) := by
  constructor
  · intro st fid c he hs hne hlen
    simp only [chunkEvent, he, hs, hne]
    rw [if_neg (by simp : ¬(false = true))]
    rw [if_neg (by simp : ¬(false = true))]
    split
    · rename_i choice heq
      exact absurd (by rw [heq] ; rfl : c.choices.length = 1) hlen
    · simp
  · intro r hlen
    simp only [chatCompletionsNS]
    split
    · rename_i choice heq
      exact absurd (by rw [heq] ; rfl : r.choices.length = 1) hlen
    · simp

/-- A chunk with two choices. -/
def twoChoiceChunk : Chunk :=
  { emptyChunk with choices := [emptyDeltaChoice, emptyDeltaChoice] }

/-- A non-streaming response with no choices. -/
def nsNoChoices : NSResponse :=
  { model := none, error := none, warning := none, usage := none, choices := [] }

/-- C7 witness: a two-choice chunk and a zero-choice non-streaming response
both error fatally. -/
theorem claim_C7_single_choice_witness :
    (chunkEvent initState "x" twoChoiceChunk).err.isSome ∧
    (chatCompletionsNS nsNoChoices).2.isSome :=
  ⟨claim_C7_single_choice.1 initState "x" twoChoiceChunk rfl rfl rfl (by decide),
    claim_C7_single_choice.2 nsNoChoices (by decide)⟩

/-! ### Upstream error passthrough (claim C8) -/

/-- C8: for every streaming chunk carrying a structured error object, the
parser throws no exception, makes exactly one terminating-issue sink call,
every terminating-issue call made carries the error's message text as an
infix, and no `appendText` or tool-call sink calls are made for that event. -/
theorem claim_C8_error_passthrough (st : PState) (fid : String) (c : Chunk) (e : String)
    (he : c.error = some e) :
    (chunkEvent st fid c).err = none ∧
    ((chunkEvent st fid c).calls.filter SinkCall.isTerminatingIssue).length = 1 ∧
    (∀ m sym, SinkCall.setDialectTerminatingIssue m sym ∈ (chunkEvent st fid c).calls →
      List.IsInfix e.data m.data) ∧
    ((chunkEvent st fid c).calls.filter (fun k => k.isAppendText || k.isToolCallCall)) = [] := by
  simp only [chunkEvent, he]
  refine ⟨by trivial, ?_, ?_, ?_⟩
  · by_cases hm : (jsTruthy c.model = true ∧ st.hasBegun = false) <;>
      simp [hm, SinkCall.isTerminatingIssue, SinkCall.isModelName]
  · intro m sym hmem
    by_cases hm : (jsTruthy c.model = true ∧ st.hasBegun = false) <;>
      simp [hm] at hmem
    · obtain ⟨hm2, _⟩ := hmem
      subst hm2
      by_cases hee : e = ""
      · subst hee
        exact List.nil_infix
      · simp [safeErrorString, jsOr, hee]
    · obtain ⟨hm2, _⟩ := hmem
      subst hm2
      by_cases hee : e = ""
      · subst hee
        exact List.nil_infix
      · simp [safeErrorString, jsOr, hee]
  · by_cases hm : (jsTruthy c.model = true ∧ st.hasBegun = false) <;>
      simp [hm, SinkCall.isAppendText, SinkCall.isToolCallCall, SinkCall.isModelName]

/-- C8 witness: the theorem at the Scenario D chunk carrying the error
message "rate limited". -/
theorem claim_C8_error_passthrough_witness :
    (chunkEvent initState "x" (errorChunk "rate limited")).err = none ∧
    ((chunkEvent initState "x" (errorChunk "rate limited")).calls.filter
      SinkCall.isTerminatingIssue).length = 1 ∧
    ((chunkEvent initState "x" (errorChunk "rate limited")).calls.filter
      (fun k => k.isAppendText || k.isToolCallCall)) = [] := by
  have h := claim_C8_error_passthrough initState "x" (errorChunk "rate limited") "rate limited" rfl
  exact ⟨h.1, h.2.1, h.2.2.2⟩

/-! ### Tool-call creation (claim C9) -/

/-- C9: for every chunk whose delta addresses a tool-call index with no
existing entry, the parser creates the entry with id from the event or else
the freshly generated identifier, name from the event or else empty,
argumentsText seeded from the event or else empty, notifies the sink once
that the call began with those values, and processes no further tool-call
entries of the same event — the result is independent of `rest`. -/
theorem claim_C9_creation_stop (st : PState) (fid : String) (j : Nat)
    (idOpt nameOpt argsOpt : Option String) (rest : List ToolCallDelta)
    (h : getSlot st.tool_calls j = none) :
    chunkEvent st fid (toolCallsChunk (creationDelta j idOpt nameOpt argsOpt :: rest)) =
      { calls := [SinkCall.startFunctionToolCall (jsOr idOpt fid) (jsOr nameOpt "") "incr_str" (jsOr argsOpt "")],
        state := { st with tool_calls := setSlot st.tool_calls j ⟨jsOr idOpt fid, jsOr nameOpt "", jsOr argsOpt ""⟩ },
        err := none } := by
  rw [chunkEvent_toolCalls, processToolCalls_creation fid j idOpt nameOpt argsOpt rest st.tool_calls h]

/-- C9 witness: with no event id the generated identifier is used, and the
second tool-call entry of the same event is ignored. -/
theorem claim_C9_creation_stop_witness :
    chunkEvent initState "gen-1" (toolCallsChunk [creationDelta 0 none (some "get_weather") none, creationDelta 1 (some "x2") (some "other") (some "z")]) =
      { calls := [SinkCall.startFunctionToolCall "gen-1" "get_weather" "incr_str" ""],
        state := { initState with tool_calls := [some ⟨"gen-1", "get_weather", ""⟩] },
        err := none } := by
  have h := claim_C9_creation_stop initState "gen-1" 0 none (some "get_weather") none
    [creationDelta 1 (some "x2") (some "other") (some "z")] rfl
  revert h
  decide
